import Mathlib

/-!
Shallow embedding of the artwork label-extraction pipeline (src/app.py).

Python byte-strings are modelled as `List Char` (`PyStr`).  The external
collaborators are modelled as oracles: the filesystem as a function from a
path to `Except` (an `open`/`read` raising `IOError` is `.error .ioError`),
and the Vision service as a function from the request body built by
`_ExtractLabels` to `Except` (a `request.execute(num_retries=3)` that fails
after exhausting its retries is `.error .httpError`; with a deterministic
oracle the retry loop is invisible, so it is folded into the oracle).
`_GetService` builds a stateless client handle and is modelled as pure; the
network calls counted by the embedding are the `annotate` requests, which
`ExtractLabels` returns as an explicit trace alongside its result.
-/

namespace Artwork

/-- Python (2) byte strings. -/
abbrev PyStr := List Char

/-- `ArtWorkImage = namedtuple('ArtWorkImage', (_MASTER_FIELD, _FILE_LOCATION))`. -/
structure ArtWorkImage where
  master_id : PyStr
  path : PyStr
deriving DecidableEq

/-- The Python values a per-image task can produce: `None` (returned by
`_ExtractLabels` when `image.path` is falsy), a `str` (the bag of words from
`_GenerateBagOfWords`), or a `list` (the `[]` returned by the degraded
branches of `_HandleApiResponse`). -/
inductive PyVal where
  | none
  | str (s : PyStr)
  | list (l : List PyStr)
deriving DecidableEq

/-- The exception types relevant to the pipeline: `ValueError(msg)` (the only
type caught by `ProcessImageList`), `IOError` from a failed file read, and the
service error raised by `execute` once its retries are exhausted. -/
inductive PyErr where
  | valueError (msg : PyStr)
  | ioError
  | httpError
deriving DecidableEq

/-- One element of the `labelAnnotations` array: a JSON object that may or
may not carry a `description` key (`if _DESCRIPTION in annotation`). -/
structure AnnotationItem where
  description : Option PyStr
deriving DecidableEq

/-- One element of the `responses` array: a JSON object that may or may not
carry a `labelAnnotations` key (`if _ANNOTATIONS in annotations`). -/
structure SingleResponse where
  labelAnnotations : Option (List AnnotationItem)
deriving DecidableEq

/-- The service response object. `nul` models a falsy response (`None` or the
empty dict), on which `if not response` fires; `obj rs` models a non-empty
dict, where `rs = Option.none` means the `responses` key is absent
(`_RESPONSES not in response`) and `rs = some l` means `response['responses'] = l`. -/
inductive ApiResponse where
  | nul
  | obj (responses : Option (List SingleResponse))
deriving DecidableEq

/-- The request body built by `_ExtractLabels`: base64 `content`, the feature
`type` string, and `maxResults`. -/
structure VisionRequest where
  content : PyStr
  featureType : PyStr
  maxResults : Nat
deriving DecidableEq

/-- The `'LABEL_DETECTION'` feature type string. -/
def LABEL_DETECTION : List Char := "LABEL_DETECTION".toList

/-- `_MAX_RESULTS = 10`. -/
def MAX_RESULTS : Nat := 10

/-- `_NUM_RETRIES = 3` (the retry cap handed to `execute`). -/
def NUM_RETRIES : Nat := 3

/-- `_MAX_WORKERS = 10` (the thread-pool size). -/
def MAX_WORKERS : Nat := 10

/-- The filesystem oracle: `ExtractImageData` reads a path to bytes or
raises. -/
abbrev FileSystem := PyStr → Except PyErr PyStr

/-- The Vision service oracle: `request.execute(num_retries=_NUM_RETRIES)`
yields a response or raises after exhausting retries. -/
abbrev VisionService := VisionRequest → Except PyErr ApiResponse

/-- The standard base64 alphabet used by `base64.b64encode`. -/
def b64alphabet : PyStr :=
  "ABCDEFGHIJKLMNOPQRSTUVWXYZabcdefghijklmnopqrstuvwxyz0123456789+/".toList

/-- Character of the base64 alphabet at a 6-bit index. -/
def b64char (n : Nat) : Char := b64alphabet.getD n 'A'

/-- `base64.b64encode(image_data).decode('UTF-8')`: 3 input bytes become 4
alphabet characters, with `=` padding on a final partial group.  A `PyStr`
character stands for the byte `c.toNat % 256`. -/
def b64encode : PyStr → PyStr
  | [] => []
  | [a] =>
      let x := a.toNat % 256
      [b64char (x / 4), b64char (x % 4 * 16), '=', '=']
  | [a, b] =>
      let x := a.toNat % 256
      let y := b.toNat % 256
      [b64char (x / 4), b64char (x % 4 * 16 + y / 16), b64char (y % 16 * 4), '=']
  | a :: b :: c :: rest =>
      let x := a.toNat % 256
      let y := b.toNat % 256
      let z := c.toNat % 256
      b64char (x / 4) :: b64char (x % 4 * 16 + y / 16) ::
        b64char (y % 16 * 4 + z / 64) :: b64char (z % 64) :: b64encode rest

/-- `_GenerateBagOfWords`: `''` on an empty list, otherwise the words joined
with a comma (`','.join(...)`; the per-element `encode`/`str` coercion is the
identity on byte strings). -/
def GenerateBagOfWords (list_of_words : List PyStr) : PyStr :=
  if list_of_words = [] then []
  else List.intercalate [','] list_of_words

/-- The `text_labels` loop of `_HandleApiResponse`: if the `labelAnnotations`
key is present, collect the `description` of every element that has one, in
service order; elements without a `description` are skipped. -/
def TextLabels (anns : SingleResponse) : List PyStr :=
  match anns.labelAnnotations with
  | Option.none => []
  | some l => l.filterMap (fun a => a.description)

/-- `_HandleApiResponse`: raise `ValueError('No response')` on a falsy
response; return the Python list `[]` when the `responses` key is absent or
`len(response['responses']) != 1`; otherwise build the bag of words from the
single response's annotations. -/
def HandleApiResponse (response : ApiResponse) : Except PyErr PyVal :=
  match response with
  | .nul => .error (.valueError "No response".toList)
  | .obj Option.none => .ok (.list [])
  | .obj (some [anns]) => .ok (.str (GenerateBagOfWords (TextLabels anns)))
  | .obj (some _) => .ok (.list [])

/-- `_ExtractLabels`: on a falsy `image.path`, log and `return` (the value
`None`), with no service request made; otherwise read the file (propagating a
read error), build the single-image request with `maxResults = _MAX_RESULTS`,
execute it against the service oracle, and hand the response to
`_HandleApiResponse`.  The second component is the trace of service requests
issued. -/
def ExtractLabels (fs : FileSystem) (svc : VisionService) (image : ArtWorkImage) :
    Except PyErr PyVal × List VisionRequest :=
  if image.path = [] then (.ok PyVal.none, [])
  else
    match fs image.path with
    | .error e => (.error e, [])
    | .ok image_data =>
        let req : VisionRequest :=
          ⟨b64encode image_data, LABEL_DETECTION, MAX_RESULTS⟩
        match svc req with
        | .error e => (.error e, [req])
        | .ok response => (HandleApiResponse response, [req])

/-- The body of the `as_completed` loop of `ProcessImageList` for one future:
append `(image.master_id, future.result())` on success; `except ValueError`
swallows (logs) a `ValueError`; any other exception propagates and the
accumulated rows are lost. -/
def CollectOutcome (id : PyStr) (r : Except PyErr PyVal)
    (acc : Except PyErr (List (PyStr × PyVal))) : Except PyErr (List (PyStr × PyVal)) :=
  match r with
  | .ok v =>
      match acc with
      | .ok image_labels => .ok ((id, v) :: image_labels)
      | .error e => .error e
  | .error (.valueError _) => acc
  | .error .ioError => .error .ioError
  | .error .httpError => .error .httpError

/-- The concurrent phase of `ProcessImageList`, modelled in submission order:
each image's task result is combined with the remaining rows by
`CollectOutcome`. -/
def ProcessLoop (fs : FileSystem) (svc : VisionService) :
    List ArtWorkImage → Except PyErr (List (PyStr × PyVal))
  | [] => .ok []
  | image :: rest =>
      CollectOutcome image.master_id (ExtractLabels fs svc image).1
        (ProcessLoop fs svc rest)

/-- The service requests issued while processing a batch: each submitted
task's trace, concatenated. -/
def RequestTrace (fs : FileSystem) (svc : VisionService)
    (image_list : List ArtWorkImage) : List VisionRequest :=
  (image_list.map (fun image => (ExtractLabels fs svc image).2)).flatten

/-- `ProcessImageList`: `raise ValueError('Invalid image list')` on an empty
batch (before any task is scheduled, so the request trace is empty);
otherwise run every task and collect the rows, together with the trace of
service requests made. -/
def ProcessImageList (fs : FileSystem) (svc : VisionService)
    (image_list : List ArtWorkImage) :
    Except PyErr (List (PyStr × PyVal)) × List VisionRequest :=
  if image_list = [] then (.error (.valueError "Invalid image list".toList), [])
  else (ProcessLoop fs svc image_list, RequestTrace fs svc image_list)

/-- Python dict lookup `entities.get(label)` on an insertion-ordered
association list. -/
def DictGet (entities : List (PyStr × Nat)) (label : PyStr) : Option Nat :=
  match entities with
  | [] => Option.none
  | kv :: rest => if kv.1 = label then some kv.2 else DictGet rest label

/-- Python dict store `entities[label] = v`: overwrite in place if the key
exists, else append (insertion order preserved). -/
def DictSet (entities : List (PyStr × Nat)) (label : PyStr) (v : Nat) :
    List (PyStr × Nat) :=
  match entities with
  | [] => [(label, v)]
  | kv :: rest => if kv.1 = label then (label, v) :: rest else kv :: DictSet rest label v

/-- The body of the `AnalyzeLabels` loop for one label:
`if entities.get(label): entities[label] += 1 else: entities[label] = 1`
(Python truthiness: an absent key or a stored `0` both take the else
branch). -/
def AddLabel (entities : List (PyStr × Nat)) (label : PyStr) : List (PyStr × Nat) :=
  match DictGet entities label with
  | some n => if n ≠ 0 then DictSet entities label (n + 1) else DictSet entities label 1
  | Option.none => DictSet entities label 1

/-- `AnalyzeLabels`: over each dataframe row, split the second field
(`labels[1]`) on a comma and count every token. -/
def AnalyzeLabels (dataframe : List (PyStr × PyStr)) : List (PyStr × Nat) :=
  dataframe.foldl (fun entities row => (row.2.splitOn ',').foldl AddLabel entities) []

/-- Sum of the counts of a histogram. -/
def SumCounts (entities : List (PyStr × Nat)) : Nat :=
  (entities.map Prod.snd).sum

/-- Total number of tokens obtained by splitting every row's label field on
the comma delimiter. -/
def TokenCount (dataframe : List (PyStr × PyStr)) : Nat :=
  (dataframe.map (fun row => (row.2.splitOn ',').length)).sum

/-- A task result that the `as_completed` loop absorbs: a success, or exactly
a `ValueError` (the only exception type named in the `except` clause). -/
def NotFatal : Except PyErr PyVal → Bool
  | .ok _ => true
  | .error (.valueError _) => true
  | .error .ioError => false
  | .error .httpError => false

/-- A task result that the `except ValueError` clause swallows, excluding the
image from the returned rows. -/
def IsExcluded : Except PyErr PyVal → Bool
  | .error (.valueError _) => true
  | _ => false

/-- The row the loop appends for one image, if any: `(master_id, result)` on
success, nothing on an exception. -/
def RowOf (image : ArtWorkImage) (r : Except PyErr PyVal) : Option (PyStr × PyVal) :=
  match r with
  | .ok v => some (image.master_id, v)
  | .error _ => Option.none

/-- The rows of all images whose task did not raise, in submission order. -/
def SuccessRows (fs : FileSystem) (svc : VisionService)
    (image_list : List ArtWorkImage) : List (PyStr × PyVal) :=
  image_list.filterMap (fun image => RowOf image (ExtractLabels fs svc image).1)

/-- The number of images whose task failure was swallowed by the
`except ValueError` clause. -/
def CountExcluded (fs : FileSystem) (svc : VisionService)
    (image_list : List ArtWorkImage) : Nat :=
  image_list.countP (fun image => IsExcluded (ExtractLabels fs svc image).1)

/-- Number of `labelAnnotations` elements carried by one response
(`0` when the key is absent). -/
def AnnCount (anns : SingleResponse) : Nat :=
  match anns.labelAnnotations with
  | Option.none => 0
  | some l => l.length

/-- Fixture: a well-formed service response whose single response carries the
annotation descriptions `cat, cat, dog` in that order. -/
def catResponse : ApiResponse :=
  .obj (some [⟨some [⟨some "cat".toList⟩, ⟨some "cat".toList⟩, ⟨some "dog".toList⟩]⟩])

/-- Fixture: a deterministic service oracle that always answers with
`catResponse`. -/
def catSvc : VisionService := fun _ => .ok catResponse

/-- Fixture: a filesystem holding one readable image at `/img/cat.jpg`; any
other path raises `IOError` on open. -/
def catFs : FileSystem := fun p =>
  if p = "/img/cat.jpg".toList then .ok "IMG".toList else .error .ioError

/-- Fixture: a filesystem holding a readable `/img/cat.jpg` and a readable
`/img/bad.jpg` whose contents the service will choke on. -/
def mixFs : FileSystem := fun p =>
  if p = "/img/bad.jpg".toList then .ok "BAD".toList
  else if p = "/img/cat.jpg".toList then .ok "IMG".toList
  else .error .ioError

/-- Fixture: a deterministic service oracle that returns a falsy response for
the request carrying the bytes of `/img/bad.jpg` (so `_HandleApiResponse`
raises `ValueError('No response')`) and `catResponse` otherwise. -/
def mixSvc : VisionService := fun req =>
  if req.content = b64encode "BAD".toList then .ok ApiResponse.nul else .ok catResponse

/-- Fixture: the single-image batch of Scenario A. -/
def c6Img : ArtWorkImage := ⟨"cat.jpg".toList, "/img/cat.jpg".toList⟩

/-- Fixture: a batch with one good image and one whose file read raises
`IOError` under `catFs`. -/
def c1Imgs : List ArtWorkImage :=
  [⟨"cat.jpg".toList, "/img/cat.jpg".toList⟩, ⟨"b".toList, "/img/nofile.jpg".toList⟩]

/-- Fixture: a batch with one empty-path image and one good image. -/
def c2Imgs : List ArtWorkImage :=
  [⟨"a".toList, []⟩, ⟨"cat.jpg".toList, "/img/cat.jpg".toList⟩]

/-- Fixture: a batch with one good image and one whose extraction fails with
`ValueError` under `mixFs`/`mixSvc`. -/
def mixImgs : List ArtWorkImage :=
  [⟨"cat.jpg".toList, "/img/cat.jpg".toList⟩, ⟨"bad.jpg".toList, "/img/bad.jpg".toList⟩]

theorem collectOutcome_ok_ok (id : PyStr) (v : PyVal) (ls : List (PyStr × PyVal)) :
    CollectOutcome id (.ok v) (.ok ls) = .ok ((id, v) :: ls) := rfl

theorem collectOutcome_ok_error (id : PyStr) (v : PyVal) (e : PyErr) :
    CollectOutcome id (.ok v) (.error e) = .error e := rfl

theorem collectOutcome_valueError (id : PyStr) (m : PyStr)
    (acc : Except PyErr (List (PyStr × PyVal))) :
    CollectOutcome id (.error (.valueError m)) acc = acc := rfl

theorem collectOutcome_ioError (id : PyStr) (acc : Except PyErr (List (PyStr × PyVal))) :
    CollectOutcome id (.error .ioError) acc = .error .ioError := rfl

theorem collectOutcome_httpError (id : PyStr) (acc : Except PyErr (List (PyStr × PyVal))) :
    CollectOutcome id (.error .httpError) acc = .error .httpError := rfl

theorem processLoop_cons (fs : FileSystem) (svc : VisionService)
    (image : ArtWorkImage) (rest : List ArtWorkImage) :
    ProcessLoop fs svc (image :: rest) =
      CollectOutcome image.master_id (ExtractLabels fs svc image).1
        (ProcessLoop fs svc rest) := rfl

/-- If every task in the batch is a success or a `ValueError`, the loop
completes with exactly the successful rows, in submission order. -/
theorem processLoop_ok (fs : FileSystem) (svc : VisionService) :
    ∀ image_list : List ArtWorkImage,
      (∀ image ∈ image_list, NotFatal (ExtractLabels fs svc image).1 = true) →
      ProcessLoop fs svc image_list = .ok (SuccessRows fs svc image_list)
  | [], _ => rfl
  | image :: rest, h => by
      have hrest := processLoop_ok fs svc rest
        (fun i hi => h i (List.mem_cons_of_mem _ hi))
      have himg := h image (List.mem_cons_self _ _)
      rw [processLoop_cons, hrest]
      cases hr : (ExtractLabels fs svc image).1 with
      | ok v =>
          rw [collectOutcome_ok_ok]
          simp [SuccessRows, List.filterMap_cons, RowOf, hr]
      | error e =>
          cases e with
          | valueError m =>
              rw [collectOutcome_valueError]
              simp [SuccessRows, List.filterMap_cons, RowOf, hr]
          | ioError => rw [hr] at himg; simp [NotFatal] at himg
          | httpError => rw [hr] at himg; simp [NotFatal] at himg

/-- Whenever the loop returns rows at all, the row count plus the number of
swallowed `ValueError` failures equals the batch size. -/
theorem processLoop_length (fs : FileSystem) (svc : VisionService) :
    ∀ (image_list : List ArtWorkImage) (rows : List (PyStr × PyVal)),
      ProcessLoop fs svc image_list = .ok rows →
      rows.length + CountExcluded fs svc image_list = image_list.length
  | [], rows, h => by
      simp only [ProcessLoop] at h
      cases h
      simp [CountExcluded]
  | image :: rest, rows, h => by
      rw [processLoop_cons] at h
      cases hr : (ExtractLabels fs svc image).1 with
      | ok v =>
          rw [hr] at h
          cases hp : ProcessLoop fs svc rest with
          | ok rows2 =>
              rw [hp, collectOutcome_ok_ok] at h
              cases h
              have ih := processLoop_length fs svc rest rows2 hp
              simp [CountExcluded, List.countP_cons, IsExcluded, hr] at ih ⊢
              omega
          | error e => rw [hp, collectOutcome_ok_error] at h; cases h
      | error e =>
          cases e with
          | valueError m =>
              rw [hr, collectOutcome_valueError] at h
              have ih := processLoop_length fs svc rest rows h
              simp [CountExcluded, List.countP_cons, IsExcluded, hr] at ih ⊢
              omega
          | ioError => rw [hr, collectOutcome_ioError] at h; cases h
          | httpError => rw [hr, collectOutcome_httpError] at h; cases h

theorem sumCounts_cons (kv : PyStr × Nat) (rest : List (PyStr × Nat)) :
    SumCounts (kv :: rest) = kv.2 + SumCounts rest := by
  simp [SumCounts]

/-- Storing `v` at key `l` changes the histogram total by `v` minus the old
count at `l` (`0` when the key was absent). -/
theorem sumCounts_dictSet (m : List (PyStr × Nat)) (l : PyStr) (v : Nat) :
    SumCounts (DictSet m l v) + (DictGet m l).getD 0 = SumCounts m + v := by
  induction m with
  | nil => simp [DictSet, DictGet, SumCounts]
  | cons kv rest ih =>
      by_cases h : kv.1 = l
      · simp [DictSet, DictGet, h, sumCounts_cons]
        omega
      · simp only [DictSet, DictGet, if_neg h]
        rw [sumCounts_cons, sumCounts_cons]
        omega

/-- Counting one label increments the histogram total by exactly one,
whatever branch of the Python truthiness test fires. -/
theorem sumCounts_addLabel (m : List (PyStr × Nat)) (l : PyStr) :
    SumCounts (AddLabel m l) = SumCounts m + 1 := by
  unfold AddLabel
  cases hg : DictGet m l with
  | none =>
      have h1 := sumCounts_dictSet m l 1
      rw [hg] at h1
      simpa using h1
  | some n =>
      have h1 := sumCounts_dictSet m l (n + 1)
      have h2 := sumCounts_dictSet m l 1
      rw [hg] at h1 h2
      simp only [Option.getD_some] at h1 h2
      change SumCounts (if n ≠ 0 then DictSet m l (n + 1) else DictSet m l 1) =
        SumCounts m + 1
      by_cases hn : n = 0
      · rw [if_neg (by omega)]
        omega
      · rw [if_pos hn]
        omega

/-- Folding a token list into the histogram adds the token count to the
total. -/
theorem sumCounts_foldl :
    ∀ (ts : List PyStr) (m : List (PyStr × Nat)),
      SumCounts (ts.foldl AddLabel m) = SumCounts m + ts.length
  | [], m => by simp
  | t :: ts, m => by
      rw [List.foldl_cons, sumCounts_foldl ts (AddLabel m t), sumCounts_addLabel,
        List.length_cons]
      omega

/-- Folding the rows of a dataframe into the histogram adds the total token
count of those rows. -/
theorem sumCounts_foldl_rows :
    ∀ (dataframe : List (PyStr × PyStr)) (m : List (PyStr × Nat)),
      SumCounts (dataframe.foldl
          (fun entities row => (row.2.splitOn ',').foldl AddLabel entities) m) =
        SumCounts m + TokenCount dataframe
  | [], m => by simp [TokenCount]
  | row :: df, m => by
      rw [List.foldl_cons, sumCounts_foldl_rows df, sumCounts_foldl]
      simp [TokenCount]
      omega

/-- The label list extracted from one response never exceeds the number of
annotation elements the service sent (elements without a `description` are
skipped, none are invented). -/
theorem textLabels_length_le (anns : SingleResponse) :
    (TextLabels anns).length ≤ AnnCount anns := by
  unfold TextLabels AnnCount
  cases anns.labelAnnotations with
  | none => simp
  | some l => simpa using List.length_filterMap_le (fun a => a.description) l

/-- Every service request the extraction client issues carries
`maxResults = _MAX_RESULTS`. -/
theorem trace_maxResults (fs : FileSystem) (svc : VisionService) (image : ArtWorkImage) :
    ∀ req ∈ (ExtractLabels fs svc image).2, req.maxResults = MAX_RESULTS := by
  intro req hreq
  by_cases hp : image.path = []
  · simp [ExtractLabels, hp] at hreq
  · cases hfs : fs image.path with
    | error e => simp [ExtractLabels, hp, hfs] at hreq
    | ok image_data =>
        cases hsvc : svc ⟨b64encode image_data, LABEL_DETECTION, MAX_RESULTS⟩ with
        | error e =>
            simp [ExtractLabels, hp, hfs, hsvc] at hreq
            simp [hreq]
        | ok response =>
            simp [ExtractLabels, hp, hfs, hsvc] at hreq
            simp [hreq]

/-- C1 as stated is false on the code: a task whose file read raises
`IOError` is not caught by the `except ValueError` clause of
`ProcessImageList`; the exception propagates, the collected rows are lost,
and the batch returns no outcome for the sibling image that succeeded. -/
theorem c1_counterexample :
    (ProcessImageList catFs catSvc c1Imgs).1 = .error PyErr.ioError ∧
    (ProcessImageList catFs catSvc c1Imgs).1 ≠ .ok (SuccessRows catFs catSvc c1Imgs) := by
  constructor
  · rfl
  · intro h
    rw [(rfl : (ProcessImageList catFs catSvc c1Imgs).1 = .error PyErr.ioError)] at h
    cases h

/-- C1 (amended): for every non-empty batch in which each per-image task
either succeeds or fails by raising a `ValueError` (the only exception type
the dispatcher's `except` clause names), the failure is caught at the task
boundary, excluded from the result set, does not abort the batch, and the
batch returns the rows of every non-failing image in submission order.
Failures of any other type are outside this guarantee. -/
theorem c1_amended (fs : FileSystem) (svc : VisionService)
    (image_list : List ArtWorkImage) (h1 : image_list ≠ [])
    (h2 : ∀ image ∈ image_list, NotFatal (ExtractLabels fs svc image).1 = true) :
    (ProcessImageList fs svc image_list).1 = .ok (SuccessRows fs svc image_list) := by
  simp only [ProcessImageList, if_neg h1]
  exact processLoop_ok fs svc image_list h2

/-- Witness for `c1_amended`: a concrete two-image batch in which the second
task fails with `ValueError('No response')`; the batch completes with the
first image's row only. -/
theorem c1_witness :
    (ProcessImageList mixFs mixSvc mixImgs).1 = .ok (SuccessRows mixFs mixSvc mixImgs) :=
  c1_amended mixFs mixSvc mixImgs (by decide) (by decide)

/-- C2 as stated is false on the code: for an image whose path is the empty
string, `_ExtractLabels` returns `None` without raising, so the row
`(master_id, None)` is appended to — not excluded from — the batch result. -/
theorem c2_counterexample :
    (ProcessImageList catFs catSvc c2Imgs).1 =
      .ok [("a".toList, PyVal.none), ("cat.jpg".toList, PyVal.str "cat,cat,dog".toList)] := rfl

/-- C2 (amended): for every image record whose path is the empty string, the
extraction returns immediately with the `None` outcome (after logging the
missing path) and issues no network request; the row `(master_id, None)` is
included in the batch result, and the batch still returns outcomes for all
other images (given that no task raises an uncaught exception type). -/
theorem c2_amended (fs : FileSystem) (svc : VisionService)
    (image_list : List ArtWorkImage) (image : ArtWorkImage)
    (hpath : image.path = []) (hmem : image ∈ image_list) (h1 : image_list ≠ [])
    (h2 : ∀ i ∈ image_list, NotFatal (ExtractLabels fs svc i).1 = true) :
    ExtractLabels fs svc image = (.ok PyVal.none, []) ∧
    (ProcessImageList fs svc image_list).1 = .ok (SuccessRows fs svc image_list) ∧
    (image.master_id, PyVal.none) ∈ SuccessRows fs svc image_list := by
  have hex : ExtractLabels fs svc image = (.ok PyVal.none, []) := by
    unfold ExtractLabels
    rw [if_pos hpath]
  refine ⟨hex, ?_, ?_⟩
  · simp only [ProcessImageList, if_neg h1]
    exact processLoop_ok fs svc image_list h2
  · unfold SuccessRows
    exact List.mem_filterMap.mpr ⟨image, hmem, by rw [hex]; rfl⟩

/-- Witness for `c2_amended`: a concrete batch with an empty-path image and a
good image; the empty-path task makes no request, its `(id, None)` row is in
the result, and the good image's row is returned too. -/
theorem c2_witness :
    ExtractLabels catFs catSvc ⟨"a".toList, []⟩ = (.ok PyVal.none, []) ∧
    (ProcessImageList catFs catSvc c2Imgs).1 = .ok (SuccessRows catFs catSvc c2Imgs) ∧
    (("a".toList : PyStr), PyVal.none) ∈ SuccessRows catFs catSvc c2Imgs :=
  c2_amended catFs catSvc c2Imgs ⟨"a".toList, []⟩ rfl (by decide) (by decide) (by decide)

/-- C3: whenever the dispatcher returns rows for a non-empty batch, the row
count is at most the batch size, equals it when no task failed, and in
general equals the batch size minus the number of tasks whose failure was
swallowed by the `except ValueError` policy. -/
theorem c3_row_count (fs : FileSystem) (svc : VisionService)
    (image_list : List ArtWorkImage) (rows : List (PyStr × PyVal))
    (h1 : image_list ≠ []) (h2 : (ProcessImageList fs svc image_list).1 = .ok rows) :
    rows.length + CountExcluded fs svc image_list = image_list.length ∧
    rows.length ≤ image_list.length ∧
    (CountExcluded fs svc image_list = 0 → rows.length = image_list.length) := by
  simp only [ProcessImageList, if_neg h1] at h2
  have h3 := processLoop_length fs svc image_list rows h2
  omega

/-- Witness for `c3_row_count`: the concrete two-image batch with one
swallowed `ValueError` failure returns one row, and `1 + 1 = 2`. -/
theorem c3_witness :
    ([("cat.jpg".toList, PyVal.str "cat,cat,dog".toList)] : List (PyStr × PyVal)).length +
        CountExcluded mixFs mixSvc mixImgs = mixImgs.length ∧
    ([("cat.jpg".toList, PyVal.str "cat,cat,dog".toList)] : List (PyStr × PyVal)).length ≤
        mixImgs.length ∧
    (CountExcluded mixFs mixSvc mixImgs = 0 →
      ([("cat.jpg".toList, PyVal.str "cat,cat,dog".toList)] : List (PyStr × PyVal)).length =
        mixImgs.length) :=
  c3_row_count mixFs mixSvc mixImgs _ (by decide) rfl

/-- C4: the code contradicts the claim (and its own docstring, which promises
"empty string if no labels found"): when the response is non-empty but lacks
the `responses` key, or its `responses` array has length other than one, no
exception is raised but the outcome is the Python list `[]`, which is not the
empty string, so the serialized label field is `[]` rather than `""`. -/
theorem c4_degraded_not_empty_string :
    HandleApiResponse (.obj Option.none) = .ok (.list []) ∧
    HandleApiResponse (.obj (some [])) = .ok (.list []) ∧
    HandleApiResponse (.obj (some [⟨Option.none⟩, ⟨Option.none⟩])) = .ok (.list []) ∧
    PyVal.list [] ≠ PyVal.str [] :=
  ⟨rfl, rfl, rfl, by decide⟩

/-- C5: for every sequence of result rows, the sum of the counts in the
histogram built by `AnalyzeLabels` equals the total number of tokens obtained
by splitting each row's label field on the comma delimiter (an empty label
field contributing its single empty-string token). -/
theorem c5_histogram_sum (dataframe : List (PyStr × PyStr)) :
    SumCounts (AnalyzeLabels dataframe) = TokenCount dataframe := by
  have h := sumCounts_foldl_rows dataframe []
  simpa [AnalyzeLabels, SumCounts] using h

/-- C6 (Scenario A): on the single-image batch `("cat.jpg", "/img/cat.jpg")`
with the service returning descriptions `cat, cat, dog` in that order, the
dispatcher returns the row `("cat.jpg", "cat,cat,dog")` — duplicates and
service order preserved — and the histogram over that row is
`cat ↦ 2, dog ↦ 1`. -/
theorem c6_scenario_a :
    (ProcessImageList catFs catSvc [c6Img]).1 =
      .ok [("cat.jpg".toList, PyVal.str "cat,cat,dog".toList)] ∧
    AnalyzeLabels [("cat.jpg".toList, "cat,cat,dog".toList)] =
      [("cat".toList, 2), ("dog".toList, 1)] :=
  ⟨rfl, by decide⟩

/-- C7: on an empty image sequence the dispatcher fails immediately with
`ValueError('Invalid image list')` (the `InvalidInput` error), before any
task runs, and its network-request trace is empty — for every filesystem and
service oracle. -/
theorem c7_empty_batch (fs : FileSystem) (svc : VisionService) :
    ProcessImageList fs svc [] =
      (.error (.valueError "Invalid image list".toList), []) := rfl

/-- C8: for every successful extraction, the label list is at most 10 long,
provided the service honors the request's result cap; the client enforces
nothing itself, but every request it issues carries `maxResults = 10`, and
the labels it extracts are a subsequence of the annotations returned. -/
theorem c8_label_cap (fs : FileSystem) (svc : VisionService) (image : ArtWorkImage)
    (anns : SingleResponse) (h : AnnCount anns ≤ 10) :
    (TextLabels anns).length ≤ 10 ∧
    HandleApiResponse (.obj (some [anns])) =
      .ok (.str (GenerateBagOfWords (TextLabels anns))) ∧
    ∀ req ∈ (ExtractLabels fs svc image).2, req.maxResults = 10 :=
  ⟨le_trans (textLabels_length_le anns) h, rfl, trace_maxResults fs svc image⟩

/-- Witness for `c8_label_cap` at the Scenario A fixture: three annotations,
three labels, and the one request issued carries `maxResults = 10`. -/
theorem c8_witness :
    (TextLabels ⟨some [⟨some "cat".toList⟩, ⟨some "cat".toList⟩, ⟨some "dog".toList⟩]⟩).length
        ≤ 10 ∧
    HandleApiResponse
        (.obj (some [⟨some [⟨some "cat".toList⟩, ⟨some "cat".toList⟩, ⟨some "dog".toList⟩]⟩])) =
      .ok (.str (GenerateBagOfWords
        (TextLabels ⟨some [⟨some "cat".toList⟩, ⟨some "cat".toList⟩, ⟨some "dog".toList⟩]⟩))) ∧
    ∀ req ∈ (ExtractLabels catFs catSvc c6Img).2, req.maxResults = 10 :=
  c8_label_cap catFs catSvc c6Img
    ⟨some [⟨some "cat".toList⟩, ⟨some "cat".toList⟩, ⟨some "dog".toList⟩]⟩ (by decide)

/-- C9: the extraction client is deterministic in its inputs: two runs on the
same image against a filesystem giving the same bytes and a service giving
the same fixed response produce identical results (in particular identical
ordered label lists) and identical request traces. -/
theorem c9_deterministic (fs1 fs2 : FileSystem) (svc1 svc2 : VisionService)
    (image : ArtWorkImage) (hfs : fs1 image.path = fs2 image.path)
    (hsvc : ∀ req, svc1 req = svc2 req) :
    ExtractLabels fs1 svc1 image = ExtractLabels fs2 svc2 image := by
  unfold ExtractLabels
  rw [hfs]
  cases fs2 image.path with
  | error e => rfl
  | ok image_data => simp only [hsvc]

/-- Witness for `c9_deterministic`: two runs on the Scenario A image against
the same oracles agree. -/
theorem c9_witness :
    ExtractLabels catFs catSvc c6Img = ExtractLabels catFs catSvc c6Img :=
  c9_deterministic catFs catFs catSvc catSvc c6Img rfl (fun _ => rfl)

/-- C10: for every non-empty list of labels none of which contains a comma,
splitting the comma-joined bag of words produced by `_GenerateBagOfWords`
back on the comma delimiter (as `AnalyzeLabels` does) recovers exactly the
original list, in order and with duplicates. -/
theorem c10_split_join (list_of_words : List PyStr)
    (h1 : list_of_words ≠ []) (h2 : ∀ s ∈ list_of_words, ',' ∉ s) :
    (GenerateBagOfWords list_of_words).splitOn ',' = list_of_words := by
  unfold GenerateBagOfWords
  rw [if_neg h1]
  exact List.splitOn_intercalate list_of_words ',' h2 h1

/-- Witness for `c10_split_join`: splitting the bag of words of
`[cat, cat, dog]` recovers the list, duplicates included. -/
theorem c10_witness :
    (GenerateBagOfWords ["cat".toList, "cat".toList, "dog".toList]).splitOn ',' =
      ["cat".toList, "cat".toList, "dog".toList] :=
  c10_split_join ["cat".toList, "cat".toList, "dog".toList] (by decide) (by decide)

end Artwork
